import Mathlib

/-!
# unifi-poller: site filtering, point batching, the cycle and the poll loop

A shallow embedding of `unifipoller/unifi.go`.  Go slices are lists, a Go
`error` is an `Option GoError` (`none` is the nil error), a Go pair of results
is a Lean pair, and a method that changes its receiver or talks to a
collaborator returns the new receiver next to its result.  A run-time panic
(index out of range) is the outer `none` of an `Option`.
-/

namespace unifipoller

/-- A Go error value: a message, possibly wrapped around a cause. -/
inductive GoError where
  | errorf (msg : String) : GoError
  | wrap (cause : GoError) (msg : String) : GoError
  deriving DecidableEq

/-- A time-series point of the sink; only its name and the outcome of its
`Fields()` call matter to the poller. -/
structure Point where
  name : String
  Fields : List (String × String) × Option GoError
  deriving DecidableEq

/-- The result pair of a `Points()` call: the points (`none` is the nil slice)
and the error. -/
abbrev PointsResult := Option (List Point) × Option GoError

/-- A non-nil entity seen through the `Asset` interface: what `Points()` returns. -/
structure Asset where
  Points : PointsResult
  deriving DecidableEq

/-- A controller site: the two fields the poller reads, and the outcome of its
`Points()` method. -/
structure Site where
  Name : String
  Desc : String
  Points : PointsResult := (none, none)
  deriving DecidableEq

/-- The three device categories of a snapshot. -/
structure Devices where
  UAPs : List (Option Asset)
  USGs : List (Option Asset)
  USWs : List (Option Asset)
  deriving DecidableEq

/-- The controller collaborator: the answer `GetSites()` gives, as the Go pair
`(sites, err)`, and the answers `GetClients(sites)` and `GetDevices(sites)`
give for the sites they are asked about. -/
structure Controller where
  GetSites : List Site × Option GoError
  GetClients : List Site → List (Option Asset) × Option GoError := fun _ => ([], none)
  GetDevices : List Site → Option Devices × Option GoError := fun _ => (none, none)

/-- The sink collaborator: the answer of `influx.NewBatchPoints` as the Go pair
`(batch, err)`, a fresh batch being empty, and the error `Write` returns for
the batch it is handed. -/
structure Influx where
  NewBatchPoints : List Point × Option GoError := ([], none)
  Write : List Point → Option GoError := fun _ => none

/-- What the poller does to the outside world, in order of occurrence. -/
inductive Event where
  | GetSites : Event
  | Logf (msg : String) : Event
  | LogErrorf (msg : String) : Event
  | GetClients (sites : List Site) : Event
  | GetDevices (sites : List Site) : Event
  | NewBatchPoints : Event
  | Write (points : List Point) : Event
  | LogError (err : GoError) (context : String) : Event
  deriving DecidableEq

/-- The poller: its configuration (`Mode`, `Sites`, `MaxErrors`), its error
counter, and the effects it has had so far (`out`, newest last). -/
structure UnifiPoller where
  Mode : String
  Sites : List String
  MaxErrors : Int := 0
  errorCount : Int := 0
  out : List Event := []
  deriving DecidableEq

/-- Modelled from the spec: `StringInSlice` is declared in another file of the
package.  The spec speaks of a name that "appears in the configured list" and
of the sentinel that "appears anywhere in the configured list": the helper
scans the slice for an element equal to `str`. -/
def StringInSlice (str : String) : List String → Bool
  | [] => false
  | s :: rest => if s = str then true else StringInSlice str rest

namespace strings

/-- Go `strings.ToLower`, folding the ASCII letters.  Go also folds letters
outside ASCII, but none of them folds to a letter of "lambda", so the test of
line 16 comes out the same. -/
def ToLower (s : String) : String := String.mk (s.data.map Char.toLower)

/-- Whether `pre` starts `s`. -/
def startsWith : List Char → List Char → Bool
  | [], _ => true
  | _ :: _, [] => false
  | p :: ps, c :: cs => if p = c then startsWith ps cs else false

/-- Whether `sub` occurs in `s` as a run of consecutive characters. -/
def containsAt (sub : List Char) : List Char → Bool
  | [] => startsWith sub []
  | c :: cs => if startsWith sub (c :: cs) then true else containsAt sub cs

/-- Go `strings.Contains`. -/
def Contains (s substr : String) : Bool := containsAt substr.data s.data

/-- Go `strings.Join`. -/
def Join (elems : List String) (sep : String) : String := sep.intercalate elems

end strings

namespace UnifiPoller

/-- Modelled from the spec: `Logf` is declared in another file of the package;
it emits one informational line. -/
def Logf (u : UnifiPoller) (msg : String) : UnifiPoller :=
  { u with out := u.out ++ [Event.Logf msg] }

/-- Modelled from the spec: `LogErrorf` is declared in another file of the
package; it emits one error line. -/
def LogErrorf (u : UnifiPoller) (msg : String) : UnifiPoller :=
  { u with out := u.out ++ [Event.LogErrorf msg] }

/-- The call `u.GetSites()` on the embedded controller client: one fetch is
recorded and the controller answers. -/
def GetSites (c : Controller) (u : UnifiPoller) : (List Site × Option GoError) × UnifiPoller :=
  (c.GetSites, { u with out := u.out ++ [Event.GetSites] })

/-- The inner loop of `CheckSites` (lines 34-38): `true` when some fetched site
has the name `s`, that is when `continue FIRST` is taken. -/
def siteOnController (s : String) : List Site → Bool
  | [] => false
  | site :: rest => if s = site.Name then true else siteOnController s rest

/-- The loop labelled `FIRST` of `CheckSites` (lines 33-41) over the configured
names still to visit. -/
def checkLoop (sites : List Site) : List String → UnifiPoller → UnifiPoller
  | [], u => u
  | s :: rest, u =>
    if siteOnController s sites then checkLoop sites rest u
    else checkLoop sites rest (u.LogErrorf ("configured site not found on controller: " ++ s))

/-- The method `CheckSites` (lines 15-43): the returned error and the poller afterwards. -/
def CheckSites (c : Controller) (u : UnifiPoller) : Option GoError × UnifiPoller :=
  if strings.Contains (strings.ToLower u.Mode) "lambda" then (none, u)
  else
    let r := u.GetSites c
    let sites := r.1.1
    let u := r.2
    match r.1.2 with
    | some err => (some err, u)
    | none =>
      let msg := sites.map (fun site => site.Name ++ " (" ++ site.Desc ++ ")")
      let u := u.Logf ("Found " ++ toString msg.length ++ " site(s) on controller: "
        ++ strings.Join msg ", ")
      if StringInSlice "all" u.Sites then (none, { u with Sites := ["all"] })
      else (none, checkLoop sites u.Sites u)

/-- One iteration of the range loop of `GetFilteredSites` (lines 171-177) at
read index `j`, on the slice as it is now and the write index `i`.  Reading or
writing outside the slice panics. -/
def filterStep (conf : List String) (st : List Site × Nat) (j : Nat) : Option (List Site × Nat) :=
  match st.1[j]? with
  | none => none
  | some s =>
    if StringInSlice s.Name conf then
      if st.2 < st.1.length then some (st.1.set st.2 s, st.2 + 1) else none
    else some st

/-- The slice and the write index after the first `k` iterations of the range
loop of `GetFilteredSites`, started on `sites` with `i = 0`. -/
def filterLoop (conf : List String) (sites : List Site) : Nat → Option (List Site × Nat)
  | 0 => some (sites, 0)
  | k + 1 => (filterLoop conf sites k).bind (fun st => filterStep conf st k)

/-- The sites among the first `k` fetched ones that the range loop keeps. -/
def kept (conf : List String) (sites : List Site) (k : Nat) : List Site :=
  (sites.take k).filter (fun s => StringInSlice s.Name conf)

/-- The method `GetFilteredSites` (lines 163-179): the Go result pair and the poller
afterwards; `none` is a panic. -/
def GetFilteredSites (c : Controller) (u : UnifiPoller) :
    Option ((List Site × Option GoError) × UnifiPoller) :=
  let r := u.GetSites c
  let sites := r.1.1
  let u := r.2
  match r.1.2 with
  | some err => some (([], some err), u)
  | none =>
    if u.Sites.length < 1 || StringInSlice "all" u.Sites then some ((sites, none), u)
    else
      match filterLoop u.Sites sites sites.length with
      | none => none
      | some (sites, i) => if i ≤ sites.length then some ((sites.take i, none), u) else none

end UnifiPoller

/-- The informational line of `CheckSites` (line 27) for the fetched sites. -/
def foundSitesLine (sites : List Site) : Event :=
  Event.Logf ("Found " ++ toString sites.length ++ " site(s) on controller: "
    ++ strings.Join (sites.map (fun site => site.Name ++ " (" ++ site.Desc ++ ")")) ", ")

/-- The missing-site warning of `CheckSites` (line 40) for the configured name `s`. -/
def siteNotFoundLine (s : String) : Event :=
  Event.LogErrorf ("configured site not found on controller: " ++ s)

/-- Whether an event is an error line. -/
def Event.isLogErrorf : Event → Bool
  | Event.LogErrorf _ => true
  | _ => false

/-- The configured names that are the Name of no fetched site, in configured order. -/
def absentSites (conf : List String) (sites : List Site) : List String :=
  conf.filter (fun s => decide (s ∉ sites.map Site.Name))

/-- Whether the poller runs in lambda mode, as `CheckSites` tests it (line 16). -/
def UnifiPoller.lambdaMode (u : UnifiPoller) : Bool :=
  strings.Contains (strings.ToLower u.Mode) "lambda"

/-- Modelled from the spec: the `Metrics` type is declared in another file of
the package.  It is the snapshot of the spec: the sites, the clients (an entry
may be nil), the devices (a pointer, nil when there are none) and the batch of
points accumulated so far. -/
structure Metrics where
  Sites : List Site
  Clients : List (Option Asset)
  Devices : Option Devices
  BatchPoints : List Point
  deriving DecidableEq

/-- A site seen through the `Asset` interface. -/
def Site.asset (s : Site) : Asset := { Points := s.Points }

namespace Metrics

/-- The call `m.BatchPoints.AddPoints(points)` of the sink library: the points
are appended to the batch. -/
def AddPoints (m : Metrics) (points : List Point) : Metrics :=
  { m with BatchPoints := m.BatchPoints ++ points }

/-- The method `processPoints` (lines 148-158): the returned error and the snapshot
afterwards; `none` is the nil asset. -/
def processPoints (m : Metrics) (asset : Option Asset) : Option GoError × Metrics :=
  match asset with
  | none => (none, m)
  | some a =>
    let points := a.Points.1
    let err := a.Points.2
    if err.isSome || points.isNone then (err, m)
    else (none, m.AddPoints (points.getD []))

/-- One range loop of `ProcessPoints` over the assets still to visit, on the
errors collected so far and the snapshot as it is now. -/
def processAll : List (Option Asset) → List (Option GoError) × Metrics →
    List (Option GoError) × Metrics
  | [], st => st
  | asset :: rest, st =>
    let r := st.2.processPoints asset
    processAll rest (st.1 ++ [r.1], r.2)

/-- The method `ProcessPoints` (lines 125-145): the returned errors and the snapshot
afterwards. -/
def ProcessPoints (m : Metrics) : List (Option GoError) × Metrics :=
  let st := processAll (m.Sites.map (fun s => some s.asset)) ([], m)
  let st := processAll st.2.Clients st
  match st.2.Devices with
  | none => st
  | some d =>
    let st := processAll d.UAPs st
    let st := processAll d.USGs st
    processAll d.USWs st

/-- The entities `ProcessPoints` is to visit, in visiting order. -/
def visited (m : Metrics) : List (Option Asset) :=
  m.Sites.map (fun s => some s.asset) ++ m.Clients ++
    match m.Devices with
    | none => []
    | some d => d.UAPs ++ d.USGs ++ d.USWs

end Metrics

/-- The error `Points()` returns for an entity; nil for the nil entity. -/
def pointsError : Option Asset → Option GoError
  | none => none
  | some a => a.Points.2

/-- The points an entity contributes: those its `Points()` returns when it
returns no error, none otherwise and none for the nil entity. -/
def pointsAdded : Option Asset → List Point
  | none => []
  | some a => if a.Points.2 = none then a.Points.1.getD [] else []

/-- The points a run of entities contributes, in order. -/
def pointsOf : List (Option Asset) → List Point
  | [] => []
  | asset :: rest => pointsAdded asset ++ pointsOf rest

namespace UnifiPoller

/-- Modelled from the spec: `LogError` is declared in another file of the
package.  The spec has every failure "logged at the point of occurrence": a
non-nil error is logged as one error line, and a nil error does nothing.  The
error counter is left alone: the spec has it "mutated only by the poll loop". -/
def LogError (u : UnifiPoller) (err : Option GoError) (context : String) : UnifiPoller :=
  match err with
  | none => u
  | some e => { u with out := u.out ++ [Event.LogError e context] }

/-- The call `u.GetClients(sites)` on the embedded controller client. -/
def GetClients (c : Controller) (u : UnifiPoller) (sites : List Site) :
    (List (Option Asset) × Option GoError) × UnifiPoller :=
  (c.GetClients sites, { u with out := u.out ++ [Event.GetClients sites] })

/-- The call `u.GetDevices(sites)` on the embedded controller client. -/
def GetDevices (c : Controller) (u : UnifiPoller) (sites : List Site) :
    (Option Devices × Option GoError) × UnifiPoller :=
  (c.GetDevices sites, { u with out := u.out ++ [Event.GetDevices sites] })

/-- The call `influx.NewBatchPoints(...)` of the sink library. -/
def NewBatchPoints (db : Influx) (u : UnifiPoller) : (List Point × Option GoError) × UnifiPoller :=
  (db.NewBatchPoints, { u with out := u.out ++ [Event.NewBatchPoints] })

/-- The call `u.Write(batch)` on the embedded sink client. -/
def Write (db : Influx) (u : UnifiPoller) (batch : List Point) : Option GoError × UnifiPoller :=
  (db.Write batch, { u with out := u.out ++ [Event.Write batch] })

/-- The method `CollectMetrics` (lines 76-91): the Go result pair and the
poller afterwards; `none` is a panic. -/
def CollectMetrics (c : Controller) (db : Influx) (u : UnifiPoller) :
    Option ((Metrics × Option GoError) × UnifiPoller) :=
  let m : Metrics := { Sites := [], Clients := [], Devices := none, BatchPoints := [] }
  match u.GetFilteredSites c with
  | none => none
  | some (r, u) =>
    let m := { m with Sites := r.1 }
    let u := u.LogError r.2 "unifi.GetSites()"
    let rc := u.GetClients c m.Sites
    let m := { m with Clients := rc.1.1 }
    let u := rc.2.LogError rc.1.2 "unifi.GetClients()"
    let rd := u.GetDevices c m.Sites
    let m := { m with Devices := rd.1.1 }
    let u := rd.2.LogError rd.1.2 "unifi.GetDevices()"
    let rb := u.NewBatchPoints db
    let m := { m with BatchPoints := rb.1.1 }
    let u := rb.2.LogError rb.1.2 "influx.NewBatchPoints"
    some ((m, rb.1.2), u)

/-- The loop of `ReportMetrics` over the errors of `ProcessPoints` (lines 97-99). -/
def logAssetErrors : List (Option GoError) → UnifiPoller → UnifiPoller
  | [], u => u
  | err :: rest, u => logAssetErrors rest (u.LogError err "asset.Points()")

/-- The accounting loop of `ReportMetrics` (lines 104-109) over the points
still to visit, on the pair `(fields, points)` counted so far.  The error of
`Fields()` is dropped and the size of the map it hands back is added. -/
def accounting : List Point → Nat × Nat → Nat × Nat
  | [], counts => counts
  | p :: rest, counts => accounting rest (counts.1 + p.Fields.1.length, counts.2 + 1)

/-- The summary text of `ReportMetrics` (lines 110-113). -/
def summaryText (sites clients uaps usgs usws points fields : Nat) : String :=
  "UniFi Measurements Recorded. Sites: " ++ toString sites ++ ", Clients: " ++ toString clients
    ++ ", Wireless APs: " ++ toString uaps ++ ", Gateways: " ++ toString usgs
    ++ ", Switches: " ++ toString usws ++ ", Points: " ++ toString points
    ++ ", Fields: " ++ toString fields

/-- The method `ReportMetrics` (lines 95-115): the returned error, the snapshot
afterwards and the poller afterwards; `none` is a panic.  The arguments of the
summary line read `metrics.UAPs`, `metrics.USGs` and `metrics.USWs` through the
`Devices` pointer, which panics when that pointer is nil. -/
def ReportMetrics (db : Influx) (u : UnifiPoller) (metrics : Metrics) :
    Option ((Option GoError × Metrics) × UnifiPoller) :=
  let r := metrics.ProcessPoints
  let metrics := r.2
  let u := logAssetErrors r.1 u
  let w := u.Write db metrics.BatchPoints
  let u := w.2
  match w.1 with
  | some err => some ((some (GoError.wrap err "influxdb.Write(points)"), metrics), u)
  | none =>
    let counts := accounting metrics.BatchPoints (0, 0)
    match metrics.Devices with
    | none => none
    | some d =>
      some ((none, metrics), u.Logf (summaryText metrics.Sites.length metrics.Clients.length
        d.UAPs.length d.USGs.length d.USWs.length counts.2 counts.1))

/-- The method `CollectAndReport` (lines 64-72): the returned error and the
poller afterwards; `none` is a panic. -/
def CollectAndReport (c : Controller) (db : Influx) (u : UnifiPoller) :
    Option (Option GoError × UnifiPoller) :=
  match u.CollectMetrics c db with
  | none => none
  | some ((metrics, err), u) =>
    match err with
    | some e => some (some e, u)
    | none =>
      match u.ReportMetrics db metrics with
      | none => none
      | some ((err, _), u) => some (err, u.LogError err "reporting metrics")

/-- The test of `PollController` after a cycle (lines 52-54): the error it
returns with, nil when the loop goes on. -/
def thresholdError (u : UnifiPoller) : Option GoError :=
  if u.MaxErrors ≥ 0 ∧ u.errorCount > u.MaxErrors then
    some (GoError.errorf ("reached maximum error count, stopping poller ("
      ++ toString u.errorCount ++ " > " ++ toString u.MaxErrors ++ ")"))
  else none

/-- One pass through the body of the loop of `PollController` (lines 51-54) on
the answers the collaborators give during that tick: the error the loop
returns with (nil when it goes on) and the poller afterwards; `none` is a panic. -/
def pollTick (c : Controller) (db : Influx) (u : UnifiPoller) :
    Option (Option GoError × UnifiPoller) :=
  match u.CollectAndReport c db with
  | none => none
  | some (_, u) => some (thresholdError u, u)

/-- The method `PollController` (lines 47-57) over the ticks the ticker
delivers, each with the answers of the collaborators during it.  The ticker
never closes its channel, so the result `(nil, u)` for the ticks given says
that the loop has not returned during them and stands at `u`; `none` is a
panic.  The start-up line and the length of the interval are not modelled. -/
def PollController : List (Controller × Influx) → UnifiPoller →
    Option (Option GoError × UnifiPoller)
  | [], u => some (none, u)
  | tick :: rest, u =>
    match u.pollTick tick.1 tick.2 with
    | none => none
    | some (some err, u) => some (some err, u)
    | some (none, u) => PollController rest u

end UnifiPoller

/-- What `LogError` emits for an error: one error line unless it is nil. -/
def logged (err : Option GoError) (context : String) : List Event :=
  match err with
  | none => []
  | some e => [Event.LogError e context]

/-- The error lines for the per-entity errors, in order. -/
def loggedAll : List (Option GoError) → List Event
  | [] => []
  | err :: rest => logged err "asset.Points()" ++ loggedAll rest

/-- The sites `GetFilteredSites` resolves from the answer of the controller and
the configured names: none after a failed fetch, all of them for an empty
configured list or one that holds "all", else those whose Name is configured. -/
def filteredSites (fetch : List Site × Option GoError) (conf : List String) : List Site :=
  match fetch.2 with
  | some _ => []
  | none =>
    if conf = [] ∨ "all" ∈ conf then fetch.1
    else fetch.1.filter (fun s => decide (s.Name ∈ conf))

/-- The snapshot a collection cycle builds from the answers of the collaborators. -/
def snapshotOf (c : Controller) (db : Influx) (u : UnifiPoller) : Metrics :=
  { Sites := filteredSites c.GetSites u.Sites
    Clients := (c.GetClients (filteredSites c.GetSites u.Sites)).1
    Devices := (c.GetDevices (filteredSites c.GetSites u.Sites)).1
    BatchPoints := db.NewBatchPoints.1 }

/-- The effects of a collection cycle, in order: the site fetch, the client
fetch and the device fetch on the resolved sites, the making of the batch, and
after each of them the error line of its failure, if it failed. -/
def collectEvents (c : Controller) (db : Influx) (u : UnifiPoller) : List Event :=
  [Event.GetSites] ++ logged c.GetSites.2 "unifi.GetSites()"
    ++ [Event.GetClients (filteredSites c.GetSites u.Sites)]
    ++ logged (c.GetClients (filteredSites c.GetSites u.Sites)).2 "unifi.GetClients()"
    ++ [Event.GetDevices (filteredSites c.GetSites u.Sites)]
    ++ logged (c.GetDevices (filteredSites c.GetSites u.Sites)).2 "unifi.GetDevices()"
    ++ [Event.NewBatchPoints] ++ logged db.NewBatchPoints.2 "influx.NewBatchPoints"

/-- The snapshot after point production: the points of the visited entities
are appended to the batch. -/
def Metrics.populated (m : Metrics) : Metrics :=
  { m with BatchPoints := m.BatchPoints ++ pointsOf (Metrics.visited m) }

/-- The effects of `ReportMetrics` up to and including the write: one error
line per failed entity, in visiting order, then the one write of the populated
batch. -/
def reportEvents (m : Metrics) : List Event :=
  loggedAll ((Metrics.visited m).map pointsError) ++ [Event.Write m.populated.BatchPoints]

/-- The summary line of `ReportMetrics` for a populated snapshot with devices `d`. -/
def summaryLine (m : Metrics) (d : Devices) : Event :=
  Event.Logf (UnifiPoller.summaryText m.Sites.length m.Clients.length d.UAPs.length
    d.USGs.length d.USWs.length (UnifiPoller.accounting m.BatchPoints (0, 0)).2
    (UnifiPoller.accounting m.BatchPoints (0, 0)).1)

/-- The number of fields of the points whose `Fields()` returns no error. -/
def fieldsOfGood : List Point → Nat
  | [] => 0
  | p :: rest => (if p.Fields.2 = none then p.Fields.1.length else 0) + fieldsOfGood rest

/-- Whether a cycle reaches the summary line of `ReportMetrics` on a snapshot
whose `Devices` is nil: the batch is made, the write succeeds and the device
fetch handed back no devices. -/
def cyclePanics (c : Controller) (db : Influx) (u : UnifiPoller) : Bool :=
  db.NewBatchPoints.2.isNone
    && (db.Write (snapshotOf c db u).populated.BatchPoints).isNone
    && (snapshotOf c db u).Devices.isNone

/-- The error a cycle returns: the error of making the batch, else the wrapped
error of the write, else nil. -/
def cycleError (c : Controller) (db : Influx) (u : UnifiPoller) : Option GoError :=
  match db.NewBatchPoints.2 with
  | some e => some e
  | none =>
    match db.Write (snapshotOf c db u).populated.BatchPoints with
    | some e => some (GoError.wrap e "influxdb.Write(points)")
    | none => none

/-- Whether an event is a client fetch or a device fetch. -/
def Event.isFetch : Event → Bool
  | Event.GetClients _ => true
  | Event.GetDevices _ => true
  | _ => false

/-- Go `n++` on an `int` of 64 bits: the sum wraps around. -/
def intIncrement (n : Int) : Int := (n + 1 + 2 ^ 63) % 2 ^ 64 - 2 ^ 63

/-- Modelled from the spec: the statement that raises `errorCount` is not in
the source file: line 51 drops the result of the cycle and no line assigns the
counter.  The spec has the poll loop "increment the persistent error counter
whenever the combined operation returns an error": the counter goes up by one
for a non-nil result of the cycle and stays for a nil one. -/
def countCycle (u : UnifiPoller) (err : Option GoError) : UnifiPoller :=
  match err with
  | none => u
  | some _ => { u with errorCount := intIncrement u.errorCount }

/-- Modelled from the spec: one tick of the poll loop with the counter of the
spec, which the source file does not hold: the cycle of line 51, the counter
raised on what the cycle returned, then the test of lines 52-54; `none` is a
panic. -/
def countedTick (c : Controller) (db : Influx) (u : UnifiPoller) :
    Option (Option GoError × UnifiPoller) :=
  match u.CollectAndReport c db with
  | none => none
  | some (err, u) => some (UnifiPoller.thresholdError (countCycle u err), countCycle u err)

/-- Modelled from the spec: the poll loop with the counter of the spec over the
ticks given, as `PollController` runs over them. -/
def countedPoll : List (Controller × Influx) → UnifiPoller →
    Option (Option GoError × UnifiPoller)
  | [], u => some (none, u)
  | tick :: rest, u =>
    match countedTick tick.1 tick.2 u with
    | none => none
    | some (some err, u) => some (some err, u)
    | some (none, u) => countedPoll rest u

/-- A point whose `Fields()` hands back three fields together with an error. -/
def oddPoint : Point :=
  { name := "odd"
    Fields := ([("rx", "1"), ("tx", "2"), ("up", "3")], some (GoError.errorf "bad field")) }

/-- A snapshot with empty device categories whose batch holds the odd point alone. -/
def oddSnapshot : Metrics :=
  { Sites := [], Clients := [], Devices := some { UAPs := [], USGs := [], USWs := [] }
    BatchPoints := [oddPoint] }

/-- A snapshot without devices: one site with a point, then a client whose
`Points()` fails while handing back a point, a nil client, and a client with a
point; the accumulator already holds a point. -/
def lenientSnapshot : Metrics :=
  { Sites := [{ Name := "ops", Desc := "Ops Team"
                Points := (some [{ name := "site", Fields := ([], none) }], none) }]
    Clients := [some { Points := (some [{ name := "lost", Fields := ([], none) }],
                  some (GoError.errorf "bad client")) },
                none,
                some { Points := (some [{ name := "client", Fields := ([], none) }], none) }]
    Devices := none
    BatchPoints := [{ name := "earlier", Fields := ([], none) }] }

/-- The two sites of the end-to-end scenarios. -/
def scenarioSites : List Site :=
  [{ Name := "default", Desc := "Default" }, { Name := "ops", Desc := "Ops Team" }]

/-- The controller of the end-to-end scenarios: the fetch succeeds with the two sites. -/
def scenarioController : Controller := { GetSites := (scenarioSites, none) }

/-- A controller whose site fetch fails (and, as Go allows, still hands back a slice). -/
def failingController : Controller :=
  { GetSites := (scenarioSites, some (GoError.errorf "connection refused")) }

/-- A poller with no configured sites that stops above two errors. -/
def idlePoller : UnifiPoller := { Mode := "influx", Sites := [], MaxErrors := 2 }

/-- A poller with no configured sites that never stops on errors. -/
def tirelessPoller : UnifiPoller := { Mode := "influx", Sites := [], MaxErrors := -1 }

/-- A controller on which every fetch succeeds; it has no clients and its
device categories are empty. -/
def healthyController : Controller :=
  { GetSites := (scenarioSites, none)
    GetDevices := fun _ => (some { UAPs := [], USGs := [], USWs := [] }, none) }

/-- A controller whose device fetch fails and hands back nil. -/
def devicesDownController : Controller :=
  { GetSites := (scenarioSites, none)
    GetDevices := fun _ => (none, some (GoError.errorf "devices unavailable")) }

/-- A sink on which every write fails. -/
def writeFailing : Influx := { Write := fun _ => some (GoError.errorf "write failed") }

/-- A snapshot of the two scenario sites whose `Devices` is nil. -/
def snapshotWithoutDevices : Metrics :=
  { Sites := scenarioSites, Clients := [], Devices := none, BatchPoints := [] }

/-- The poller after a cycle on the healthy controller whose only failure is
the write: the three fetches, the making of the batch, the write of the empty
batch, and the error line of the failed write. -/
def afterFailedWrite (u : UnifiPoller) : UnifiPoller :=
  { u with
    out := u.out ++ [Event.GetSites, Event.GetClients scenarioSites,
      Event.GetDevices scenarioSites, Event.NewBatchPoints, Event.Write [],
      Event.LogError (GoError.wrap (GoError.errorf "write failed") "influxdb.Write(points)")
        "reporting metrics"] }

/-- One tick during which every write fails and nothing else does. -/
def failedWriteTick : Controller × Influx := (healthyController, writeFailing)

/-! ## Lemmas on the helpers -/

theorem StringInSlice_iff (str : String) (slice : List String) :
    StringInSlice str slice = true ↔ str ∈ slice := by
  induction slice with
  | nil => simp [StringInSlice]
  | cons s rest ih =>
    by_cases h : s = str
    · simp [StringInSlice, h]
    · have h2 : ¬ str = s := fun e => h e.symm
      simp [StringInSlice, h, h2, ih]

theorem StringInSlice_eq_decide (str : String) (slice : List String) :
    StringInSlice str slice = decide (str ∈ slice) := by
  by_cases h : str ∈ slice
  · simp [h, (StringInSlice_iff str slice).2 h]
  · have : StringInSlice str slice = false := by
      cases hs : StringInSlice str slice with
      | false => rfl
      | true => exact absurd ((StringInSlice_iff str slice).1 hs) h
    simp [h, this]

namespace UnifiPoller

theorem kept_length_le (conf : List String) (sites : List Site) (k : Nat) :
    (kept conf sites k).length ≤ k := by
  unfold kept
  exact le_trans (List.length_filter_le _ _) (by simp)

theorem kept_succ (conf : List String) (sites : List Site) (k : Nat) (s : Site)
    (hs : sites[k]? = some s) :
    kept conf sites (k + 1) =
      if StringInSlice s.Name conf then kept conf sites k ++ [s] else kept conf sites k := by
  unfold kept
  rw [List.take_succ, hs]
  by_cases h : StringInSlice s.Name conf = true <;> simp [List.filter_append, h]

/-- Loop invariant of the in-place compaction: after `k` iterations the slice is
the kept sites followed by the untouched tail of the fetched slice, and the
write index is the number of kept sites. -/
theorem filterLoop_eq (conf : List String) (sites : List Site) (k : Nat) (hk : k ≤ sites.length) :
    filterLoop conf sites k =
      some (kept conf sites k ++ sites.drop (kept conf sites k).length,
        (kept conf sites k).length) := by
  induction k with
  | zero => simp [filterLoop, kept]
  | succ k ih =>
    have hlt : k < sites.length := hk
    have hle := kept_length_le conf sites k
    have hs : sites[k]? = some sites[k] := List.getElem?_eq_getElem hlt
    rw [filterLoop, ih (Nat.le_of_lt hlt), Option.some_bind, kept_succ conf sites k _ hs]
    have hread : (kept conf sites k ++ sites.drop (kept conf sites k).length)[k]?
        = some sites[k] := by
      rw [List.getElem?_append_right hle, List.getElem?_drop]
      rw [Nat.add_sub_cancel' hle]
      exact hs
    unfold filterStep
    simp only [hread]
    by_cases hp : StringInSlice sites[k].Name conf = true
    · have hlen : (kept conf sites k).length
          < (kept conf sites k ++ sites.drop (kept conf sites k).length).length := by
        simp only [List.length_append, List.length_drop]
        omega
      have hdrop : sites.drop (kept conf sites k).length
          = sites[(kept conf sites k).length] :: sites.drop ((kept conf sites k).length + 1) :=
        List.drop_eq_getElem_cons (by omega)
      simp only [hp, if_true, hlen]
      have hset : (sites.drop (kept conf sites k).length).set 0 sites[k]
          = sites[k] :: sites.drop ((kept conf sites k).length + 1) := by
        rw [hdrop]
        rfl
      rw [List.set_append, if_neg (lt_irrefl _), Nat.sub_self, hset]
      simp
    · simp only [hp]
      simp

theorem kept_all (conf : List String) (sites : List Site) :
    kept conf sites sites.length = sites.filter (fun s => decide (s.Name ∈ conf)) := by
  unfold kept
  rw [List.take_length]
  congr 1
  funext s
  exact StringInSlice_eq_decide s.Name conf

/-- On a successful fetch with a configured list that asks for a selection, the
compaction returns the membership filter of the fetched sites and never panics. -/
theorem GetFilteredSites_select (c : Controller) (u : UnifiPoller)
    (herr : c.GetSites.2 = none) (hne : u.Sites ≠ []) (hall : "all" ∉ u.Sites) :
    GetFilteredSites c u =
      some ((c.GetSites.1.filter (fun s => decide (s.Name ∈ u.Sites)), none),
        { u with out := u.out ++ [Event.GetSites] }) := by
  have h1 : ¬ u.Sites.length < 1 := by
    cases hu : u.Sites with
    | nil => exact absurd hu hne
    | cons a l => simp
  have h2 : StringInSlice "all" u.Sites = false := by
    rw [StringInSlice_eq_decide]
    simp [hall]
  unfold GetFilteredSites
  simp only [GetSites, herr, h1, h2, decide_False, Bool.or_self, Bool.false_eq_true, if_false]
  rw [filterLoop_eq u.Sites c.GetSites.1 c.GetSites.1.length (le_refl _)]
  have hk := kept_length_le u.Sites c.GetSites.1 c.GetSites.1.length
  simp only [List.length_append, List.length_drop]
  rw [if_pos (by omega), List.take_left, kept_all]

/-- On a successful fetch with an empty configured list, or one that holds the
sentinel, the fetched slice is returned as it is. -/
theorem GetFilteredSites_everything (c : Controller) (u : UnifiPoller)
    (herr : c.GetSites.2 = none) (hall : u.Sites = [] ∨ "all" ∈ u.Sites) :
    GetFilteredSites c u =
      some ((c.GetSites.1, none), { u with out := u.out ++ [Event.GetSites] }) := by
  have h : (decide (u.Sites.length < 1) || StringInSlice "all" u.Sites) = true := by
    rcases hall with h | h
    · simp [h]
    · simp [(StringInSlice_iff "all" u.Sites).2 h]
  unfold GetFilteredSites
  simp only [GetSites, herr, h, if_true]

/-- On a failed fetch the error is handed on with a nil slice. -/
theorem GetFilteredSites_failed (c : Controller) (u : UnifiPoller) (e : GoError)
    (herr : c.GetSites.2 = some e) :
    GetFilteredSites c u = some (([], some e), { u with out := u.out ++ [Event.GetSites] }) := by
  unfold GetFilteredSites
  simp only [GetSites, herr]

theorem siteOnController_eq_decide (s : String) (sites : List Site) :
    siteOnController s sites = decide (s ∈ sites.map Site.Name) := by
  induction sites with
  | nil => simp [siteOnController]
  | cons site rest ih =>
    by_cases h : s = site.Name
    · simp [siteOnController, h]
    · simp [siteOnController, h, ih]

theorem absentSites_cons_present (s : String) (rest : List String) (sites : List Site)
    (h : s ∈ sites.map Site.Name) : absentSites (s :: rest) sites = absentSites rest sites := by
  unfold absentSites
  rw [List.filter_cons, if_neg]
  simp only [decide_eq_true_eq, not_not]
  exact h

theorem absentSites_cons_absent (s : String) (rest : List String) (sites : List Site)
    (h : s ∉ sites.map Site.Name) :
    absentSites (s :: rest) sites = s :: absentSites rest sites := by
  unfold absentSites
  rw [List.filter_cons, if_pos]
  simp only [decide_eq_true_eq]
  exact h

/-- The loop `FIRST` only appends one warning per absent configured name. -/
theorem checkLoop_eq (sites : List Site) (conf : List String) (u : UnifiPoller) :
    checkLoop sites conf u =
      { u with out := u.out ++ (absentSites conf sites).map siteNotFoundLine } := by
  induction conf generalizing u with
  | nil => simp [checkLoop, absentSites]
  | cons s rest ih =>
    unfold checkLoop
    rw [siteOnController_eq_decide]
    by_cases h : s ∈ sites.map Site.Name
    · rw [if_pos (decide_eq_true h), ih, absentSites_cons_present s rest sites h]
    · rw [if_neg (by rw [decide_eq_true_eq]; exact h), ih, absentSites_cons_absent s rest sites h]
      simp only [LogErrorf, siteNotFoundLine, List.map_cons, List.append_assoc,
        List.singleton_append]

theorem countP_isLogErrorf_warnings (names : List String) :
    (names.map siteNotFoundLine).countP Event.isLogErrorf = names.length := by
  induction names with
  | nil => rfl
  | cons s rest ih => simp [List.countP_cons, siteNotFoundLine, Event.isLogErrorf, ih]

/-- In lambda mode `CheckSites` does nothing. -/
theorem CheckSites_lambda (c : Controller) (u : UnifiPoller) (hmode : u.lambdaMode = true) :
    CheckSites c u = (none, u) := by
  unfold lambdaMode at hmode
  unfold CheckSites
  rw [if_pos hmode]

/-- Outside lambda mode a failed fetch is returned right after the fetch. -/
theorem CheckSites_failed (c : Controller) (u : UnifiPoller) (e : GoError)
    (hmode : u.lambdaMode = false) (herr : c.GetSites.2 = some e) :
    CheckSites c u = (some e, { u with out := u.out ++ [Event.GetSites] }) := by
  unfold lambdaMode at hmode
  unfold CheckSites
  simp only [hmode, Bool.false_eq_true, if_false, GetSites, herr]

/-- Outside lambda mode, after a successful fetch, the sentinel collapses the
configured list. -/
theorem CheckSites_all (c : Controller) (u : UnifiPoller)
    (hmode : u.lambdaMode = false) (herr : c.GetSites.2 = none) (hall : "all" ∈ u.Sites) :
    CheckSites c u = (none, { u with
      Sites := ["all"], out := u.out ++ [Event.GetSites, foundSitesLine c.GetSites.1] }) := by
  unfold lambdaMode at hmode
  unfold CheckSites
  simp only [hmode, Bool.false_eq_true, if_false, GetSites, herr, Logf,
    (StringInSlice_iff "all" u.Sites).2 hall, if_true, foundSitesLine, List.length_map,
    List.append_assoc, List.singleton_append]

/-- Outside lambda mode, after a successful fetch and without the sentinel,
each absent configured name is warned about. -/
theorem CheckSites_names (c : Controller) (u : UnifiPoller)
    (hmode : u.lambdaMode = false) (herr : c.GetSites.2 = none) (hall : "all" ∉ u.Sites) :
    CheckSites c u = (none, { u with
      out := u.out ++ [Event.GetSites, foundSitesLine c.GetSites.1]
        ++ (absentSites u.Sites c.GetSites.1).map siteNotFoundLine }) := by
  have h2 : StringInSlice "all" u.Sites = false := by
    rw [StringInSlice_eq_decide]
    simp [hall]
  unfold lambdaMode at hmode
  unfold CheckSites
  simp only [hmode, Bool.false_eq_true, if_false, GetSites, herr, Logf, h2, checkLoop_eq,
    foundSitesLine, List.length_map, List.append_assoc, List.singleton_append]

/-- Outside lambda mode the error of `CheckSites` is the error of the fetch. -/
theorem CheckSites_fst (c : Controller) (u : UnifiPoller) (hmode : u.lambdaMode = false) :
    (CheckSites c u).1 = c.GetSites.2 := by
  cases herr : c.GetSites.2 with
  | some e => rw [CheckSites_failed c u e hmode herr]
  | none =>
    by_cases hall : "all" ∈ u.Sites
    · rw [CheckSites_all c u hmode herr hall]
    · rw [CheckSites_names c u hmode herr hall]

/-- Two warnings are the same line only for the same configured name. -/
theorem siteNotFoundLine_injective : Function.Injective siteNotFoundLine := by
  intro a b h
  unfold siteNotFoundLine at h
  have h1 := congrArg String.data (Event.LogErrorf.inj h)
  rw [String.data_append, String.data_append] at h1
  exact String.ext (List.append_cancel_left h1)

end UnifiPoller

namespace Metrics

theorem processPoints_eq (m : Metrics) (asset : Option Asset) :
    m.processPoints asset =
      (pointsError asset, { m with BatchPoints := m.BatchPoints ++ pointsAdded asset }) := by
  cases asset with
  | none => simp [processPoints, pointsError, pointsAdded]
  | some a =>
    obtain ⟨⟨points, err⟩⟩ := a
    cases err with
    | some e => simp [processPoints, pointsError, pointsAdded]
    | none =>
      cases points with
      | none => simp [processPoints, pointsError, pointsAdded]
      | some ps => simp [processPoints, AddPoints, pointsError, pointsAdded]

/-- A range loop appends one error per asset and the points of the assets. -/
theorem processAll_eq (l : List (Option Asset)) (errs : List (Option GoError)) (m : Metrics) :
    processAll l (errs, m) =
      (errs ++ l.map pointsError, { m with BatchPoints := m.BatchPoints ++ pointsOf l }) := by
  induction l generalizing errs m with
  | nil => simp [processAll, pointsOf]
  | cons asset rest ih =>
    rw [processAll, processPoints_eq, ih]
    simp [pointsOf]

theorem pointsOf_append (l₁ l₂ : List (Option Asset)) :
    pointsOf (l₁ ++ l₂) = pointsOf l₁ ++ pointsOf l₂ := by
  induction l₁ with
  | nil => rfl
  | cons a rest ih => simp [pointsOf, ih]

/-- What `ProcessPoints` computes, in closed form. -/
theorem ProcessPoints_eq (m : Metrics) :
    m.ProcessPoints =
      ((visited m).map pointsError,
        { m with BatchPoints := m.BatchPoints ++ pointsOf (visited m) }) := by
  unfold ProcessPoints visited
  cases hd : m.Devices with
  | none => simp [processAll_eq, hd, pointsOf_append]
  | some d => simp [processAll_eq, hd, pointsOf_append]

end Metrics

namespace UnifiPoller

theorem LogError_eq (u : UnifiPoller) (err : Option GoError) (context : String) :
    u.LogError err context =
      { u with out := u.out ++ logged err context } := by
  cases err with
  | none => simp [LogError, logged]
  | some e => simp [LogError, logged]

theorem logAssetErrors_eq (errs : List (Option GoError)) (u : UnifiPoller) :
    logAssetErrors errs u =
      { u with out := u.out ++ loggedAll errs } := by
  induction errs generalizing u with
  | nil => simp [logAssetErrors, loggedAll]
  | cons err rest ih =>
    rw [logAssetErrors, ih, LogError_eq]
    simp [loggedAll]

/-- What `GetFilteredSites` computes, in closed form: it never panics. -/
theorem GetFilteredSites_eq (c : Controller) (u : UnifiPoller) :
    GetFilteredSites c u =
      some ((filteredSites c.GetSites u.Sites, c.GetSites.2),
        { u with out := u.out ++ [Event.GetSites] }) := by
  cases herr : c.GetSites.2 with
  | some e => rw [GetFilteredSites_failed c u e herr]; simp [filteredSites, herr]
  | none =>
    by_cases hall : u.Sites = [] ∨ "all" ∈ u.Sites
    · rw [GetFilteredSites_everything c u herr hall]; simp [filteredSites, herr, hall]
    · rw [GetFilteredSites_select c u herr (fun h => hall (Or.inl h)) (fun h => hall (Or.inr h))]
      simp [filteredSites, herr, hall]

/-- What `CollectMetrics` computes, in closed form: it never panics. -/
theorem CollectMetrics_eq (c : Controller) (db : Influx) (u : UnifiPoller) :
    CollectMetrics c db u =
      some ((snapshotOf c db u, db.NewBatchPoints.2),
        { u with out := u.out ++ collectEvents c db u }) := by
  unfold CollectMetrics
  rw [GetFilteredSites_eq]
  simp only [LogError_eq, GetClients, GetDevices, NewBatchPoints, snapshotOf,
    collectEvents, List.append_assoc]

end UnifiPoller

namespace UnifiPoller

theorem ProcessPoints_populated (m : Metrics) :
    m.ProcessPoints = ((Metrics.visited m).map pointsError, m.populated) :=
  Metrics.ProcessPoints_eq m

/-- When the write fails `ReportMetrics` returns its error wrapped, right after the write. -/
theorem ReportMetrics_write_failed (db : Influx) (u : UnifiPoller) (m : Metrics) (e : GoError)
    (hw : db.Write m.populated.BatchPoints = some e) :
    ReportMetrics db u m =
      some ((some (GoError.wrap e "influxdb.Write(points)"), m.populated),
        { u with out := u.out ++ reportEvents m }) := by
  unfold ReportMetrics
  simp only [ProcessPoints_populated, logAssetErrors_eq, Write, hw, reportEvents,
    List.append_assoc]

/-- When the write succeeds on a snapshot with devices `ReportMetrics` logs the
summary and returns nil. -/
theorem ReportMetrics_written (db : Influx) (u : UnifiPoller) (m : Metrics) (d : Devices)
    (hw : db.Write m.populated.BatchPoints = none) (hd : m.Devices = some d) :
    ReportMetrics db u m =
      some ((none, m.populated),
        { u with out := u.out ++ reportEvents m ++ [summaryLine m.populated d] }) := by
  have hd2 : m.populated.Devices = some d := hd
  unfold ReportMetrics
  simp only [ProcessPoints_populated, logAssetErrors_eq, Write, hw, hd2, reportEvents,
    List.append_assoc, Logf, summaryLine]

/-- When the write succeeds on a snapshot whose `Devices` is nil, the summary
line dereferences the nil pointer. -/
theorem ReportMetrics_nil_devices (db : Influx) (u : UnifiPoller) (m : Metrics)
    (hw : db.Write m.populated.BatchPoints = none) (hd : m.Devices = none) :
    ReportMetrics db u m = none := by
  have hd2 : m.populated.Devices = none := hd
  unfold ReportMetrics
  simp only [ProcessPoints_populated, Write, hw, hd2]

/-- A cycle whose batch cannot be made returns that error without reporting. -/
theorem CollectAndReport_init_failed (c : Controller) (db : Influx) (u : UnifiPoller)
    (e : GoError) (hb : db.NewBatchPoints.2 = some e) :
    CollectAndReport c db u =
      some (some e, { u with out := u.out ++ collectEvents c db u }) := by
  unfold CollectAndReport
  simp only [CollectMetrics_eq, hb]

/-- A cycle whose write fails returns the wrapped error and logs it. -/
theorem CollectAndReport_write_failed (c : Controller) (db : Influx) (u : UnifiPoller)
    (e : GoError) (hb : db.NewBatchPoints.2 = none)
    (hw : db.Write (snapshotOf c db u).populated.BatchPoints = some e) :
    CollectAndReport c db u =
      some (some (GoError.wrap e "influxdb.Write(points)"),
        { u with
          out := u.out ++ collectEvents c db u ++ reportEvents (snapshotOf c db u)
            ++ [Event.LogError (GoError.wrap e "influxdb.Write(points)") "reporting metrics"] }) := by
  unfold CollectAndReport
  simp only [CollectMetrics_eq, hb, ReportMetrics_write_failed db _ _ e hw, LogError_eq,
    logged]

/-- A cycle that makes its batch and writes it, on a snapshot with devices,
returns nil after the summary line. -/
theorem CollectAndReport_written (c : Controller) (db : Influx) (u : UnifiPoller)
    (d : Devices) (hb : db.NewBatchPoints.2 = none)
    (hw : db.Write (snapshotOf c db u).populated.BatchPoints = none)
    (hd : (snapshotOf c db u).Devices = some d) :
    CollectAndReport c db u =
      some (none,
        { u with
          out := u.out ++ collectEvents c db u ++ reportEvents (snapshotOf c db u)
            ++ [summaryLine (snapshotOf c db u).populated d] }) := by
  unfold CollectAndReport
  simp only [CollectMetrics_eq, hb, ReportMetrics_written db _ _ d hw hd, LogError_eq,
    logged, List.append_nil]

/-- A cycle that makes its batch and writes it, on a snapshot whose `Devices`
is nil, panics in the summary line. -/
theorem CollectAndReport_nil_devices (c : Controller) (db : Influx) (u : UnifiPoller)
    (hb : db.NewBatchPoints.2 = none)
    (hw : db.Write (snapshotOf c db u).populated.BatchPoints = none)
    (hd : (snapshotOf c db u).Devices = none) :
    CollectAndReport c db u = none := by
  unfold CollectAndReport
  simp only [CollectMetrics_eq, hb, ReportMetrics_nil_devices db _ _ hw hd]

end UnifiPoller

namespace UnifiPoller

/-- A cycle that reaches the summary line without devices panics. -/
theorem CollectAndReport_panics (c : Controller) (db : Influx) (u : UnifiPoller)
    (hp : cyclePanics c db u = true) : CollectAndReport c db u = none := by
  unfold cyclePanics at hp
  simp only [Bool.and_eq_true, Option.isNone_iff_eq_none] at hp
  exact CollectAndReport_nil_devices c db u hp.1.1 hp.1.2 hp.2

/-- Every other cycle returns its error, with some effects and nothing else changed. -/
theorem CollectAndReport_returns (c : Controller) (db : Influx) (u : UnifiPoller)
    (hp : cyclePanics c db u = false) :
    ∃ evs, CollectAndReport c db u =
      some (cycleError c db u,
        { u with out := u.out ++ evs }) := by
  cases hb : db.NewBatchPoints.2 with
  | some e =>
    refine ⟨collectEvents c db u, ?_⟩
    rw [CollectAndReport_init_failed c db u e hb]
    simp [cycleError, hb]
  | none =>
    cases hw : db.Write (snapshotOf c db u).populated.BatchPoints with
    | some e =>
      refine ⟨collectEvents c db u ++ reportEvents (snapshotOf c db u)
        ++ [Event.LogError (GoError.wrap e "influxdb.Write(points)") "reporting metrics"], ?_⟩
      rw [CollectAndReport_write_failed c db u e hb hw]
      simp only [cycleError, hb, hw, List.append_assoc]
    | none =>
      cases hd : (snapshotOf c db u).Devices with
      | none => simp [cyclePanics, hb, hw, hd] at hp
      | some d =>
        refine ⟨collectEvents c db u ++ reportEvents (snapshotOf c db u)
          ++ [summaryLine (snapshotOf c db u).populated d], ?_⟩
        rw [CollectAndReport_written c db u d hb hw hd]
        simp only [cycleError, hb, hw, List.append_assoc]

/-- A cycle leaves the threshold as it was. -/
theorem CollectAndReport_MaxErrors (c : Controller) (db : Influx) (u : UnifiPoller)
    (err : Option GoError) (u' : UnifiPoller) (h : CollectAndReport c db u = some (err, u')) :
    u'.MaxErrors = u.MaxErrors := by
  cases hp : cyclePanics c db u with
  | true => rw [CollectAndReport_panics c db u hp] at h; cases h
  | false =>
    obtain ⟨evs, he⟩ := CollectAndReport_returns c db u hp
    rw [he] at h
    cases h
    rfl

/-- A cycle leaves the error counter as it was: no line of it assigns the counter. -/
theorem CollectAndReport_errorCount (c : Controller) (db : Influx) (u : UnifiPoller)
    (err : Option GoError) (u' : UnifiPoller) (h : CollectAndReport c db u = some (err, u')) :
    u'.errorCount = u.errorCount := by
  cases hp : cyclePanics c db u with
  | true => rw [CollectAndReport_panics c db u hp] at h; cases h
  | false =>
    obtain ⟨evs, he⟩ := CollectAndReport_returns c db u hp
    rw [he] at h
    cases h
    rfl

theorem thresholdError_ne_none_iff (u : UnifiPoller) :
    thresholdError u ≠ none ↔ (u.MaxErrors ≥ 0 ∧ u.errorCount > u.MaxErrors) := by
  unfold thresholdError
  by_cases h : u.MaxErrors ≥ 0 ∧ u.errorCount > u.MaxErrors
  · simp [h]
  · simp only [if_neg h, ne_eq, not_true_eq_false, false_iff]
    exact h

theorem pollTick_of_cycle (c : Controller) (db : Influx) (u : UnifiPoller)
    (err : Option GoError) (u' : UnifiPoller) (h : CollectAndReport c db u = some (err, u')) :
    pollTick c db u = some (thresholdError u', u') := by
  unfold pollTick
  rw [h]

/-- With a negative threshold the loop never returns the threshold error. -/
theorem PollController_negative (ticks : List (Controller × Influx)) (u : UnifiPoller)
    (hneg : u.MaxErrors < 0) :
    PollController ticks u = none ∨ ∃ u', PollController ticks u = some (none, u') := by
  induction ticks generalizing u with
  | nil => exact Or.inr ⟨u, rfl⟩
  | cons tick rest ih =>
    unfold PollController
    cases hc : CollectAndReport tick.1 tick.2 u with
    | none => left; simp [pollTick, hc]
    | some r =>
      obtain ⟨err, u'⟩ := r
      have hm := CollectAndReport_MaxErrors _ _ _ _ _ hc
      have hn : thresholdError u' = none := by
        unfold thresholdError
        rw [if_neg]
        intro hh
        omega
      rw [pollTick_of_cycle _ _ _ _ _ hc, hn]
      exact ih u' (by omega)

end UnifiPoller

namespace UnifiPoller

/-- After a successful fetch outside lambda mode and without the sentinel, a
name is warned about exactly when it is configured and on no fetched site. -/
theorem warned_iff (c : Controller) (u : UnifiPoller) (hmode : u.lambdaMode = false)
    (herr : c.GetSites.2 = none) (hall : "all" ∉ u.Sites) (s : String) :
    siteNotFoundLine s ∈ (CheckSites c u).2.out.drop u.out.length ↔
      (s ∈ u.Sites ∧ ∀ site ∈ c.GetSites.1, s ≠ site.Name) := by
  rw [CheckSites_names c u hmode herr hall]
  simp only [List.append_assoc, List.drop_left, List.mem_append, List.mem_map]
  constructor
  · rintro (h1 | ⟨t, ht, hts⟩)
    · simp [siteNotFoundLine, foundSitesLine] at h1
    · have hst := siteNotFoundLine_injective hts
      subst hst
      unfold absentSites at ht
      simp only [List.mem_filter, decide_eq_true_eq, List.mem_map, not_exists, not_and] at ht
      exact ⟨ht.1, fun site hsite e => ht.2 site hsite e.symm⟩
  · rintro ⟨h1, h2⟩
    refine Or.inr ⟨s, ?_, rfl⟩
    unfold absentSites
    simp only [List.mem_filter, decide_eq_true_eq, List.mem_map, not_exists, not_and]
    exact ⟨h1, fun site hsite e => h2 site hsite e.symm⟩

theorem filter_isFetch_logged (err : Option GoError) (context : String) :
    (logged err context).filter Event.isFetch = [] := by
  cases err <;> simp [logged, Event.isFetch]

theorem NewBatchPoints_mem_collectEvents (c : Controller) (db : Influx) (u : UnifiPoller) :
    Event.NewBatchPoints ∈ collectEvents c db u := by
  simp [collectEvents]

theorem filter_isFetch_collectEvents (c : Controller) (db : Influx) (u : UnifiPoller) :
    (collectEvents c db u).filter Event.isFetch =
      [Event.GetClients (filteredSites c.GetSites u.Sites),
        Event.GetDevices (filteredSites c.GetSites u.Sites)] := by
  simp [collectEvents, List.filter_append, filter_isFetch_logged, Event.isFetch]

/-- The accounting loop adds one per point and the size of each returned map. -/
theorem accounting_eq (pts : List Point) (counts : Nat × Nat) :
    accounting pts counts =
      (counts.1 + (pts.map (fun p => p.Fields.1.length)).sum, counts.2 + pts.length) := by
  induction pts generalizing counts with
  | nil => simp [accounting]
  | cons p rest ih =>
    rw [accounting, ih]
    simp only [List.map_cons, List.sum_cons, List.length_cons]
    ext <;> simp <;> omega

theorem Logf_not_mem_loggedAll (errs : List (Option GoError)) (msg : String) :
    Event.Logf msg ∉ loggedAll errs := by
  induction errs with
  | nil => simp [loggedAll]
  | cons err rest ih =>
    cases err <;> simp [loggedAll, logged, ih]

/-- The state of the compaction after `k` iterations, spelled out. -/
theorem filterLoop_state (conf : List String) (sites : List Site) (k : Nat)
    (hk : k ≤ sites.length) :
    ∃ arr i, filterLoop conf sites k = some (arr, i) ∧ i ≤ k ∧ i = (kept conf sites k).length
      ∧ arr.length = sites.length ∧ (∀ j : Nat, i ≤ j → arr[j]? = sites[j]?)
      ∧ arr.take i = kept conf sites k := by
  have hle := kept_length_le conf sites k
  refine ⟨_, _, filterLoop_eq conf sites k hk, hle, rfl, ?_, ?_, List.take_left _ _⟩
  · simp only [List.length_append, List.length_drop]
    omega
  · intro j hj
    rw [List.getElem?_append_right hj, List.getElem?_drop, Nat.add_sub_cancel' hj]

end UnifiPoller

/-! ## The claims -/

open UnifiPoller

/-- C1: when the site fetch succeeds and the configured list is non-empty and
does not hold "all", GetFilteredSites returns, with a nil error and without
panicking, exactly the fetched sites whose Name is a member of the configured
list, in the order of the controller, repeated fetched sites kept. -/
theorem C1_GetFilteredSites_is_membership_filter (c : Controller) (u : UnifiPoller)
    (fetched : List Site) (hfetch : c.GetSites = (fetched, none))
    (hne : u.Sites ≠ []) (hall : "all" ∉ u.Sites) :
    GetFilteredSites c u =
      some ((fetched.filter (fun s => decide (s.Name ∈ u.Sites)), none),
        { u with out := u.out ++ [Event.GetSites] }) := by
  have h := GetFilteredSites_select c u (by rw [hfetch]) hne hall
  rw [hfetch] at h
  exact h

/-- C1 witness: the controller holds default and ops, the configuration asks
for ops, and the result is the ops site alone. -/
theorem C1_witness :
    GetFilteredSites scenarioController { Mode := "", Sites := ["ops"] } =
      some (([{ Name := "ops", Desc := "Ops Team" }], none),
        { Mode := "", Sites := ["ops"], out := [Event.GetSites] }) :=
  C1_GetFilteredSites_is_membership_filter scenarioController
    { Mode := "", Sites := ["ops"] } scenarioSites rfl (by decide) (by decide)

/-- C2: when the site fetch succeeds and the configured list is empty or holds
"all" (at any position, next to any other names), GetFilteredSites returns the
fetched list itself with a nil error: same sites, same order, same length. -/
theorem C2_GetFilteredSites_returns_everything (c : Controller) (u : UnifiPoller)
    (fetched : List Site) (hfetch : c.GetSites = (fetched, none))
    (hall : u.Sites = [] ∨ "all" ∈ u.Sites) :
    GetFilteredSites c u =
      some ((fetched, none), { u with out := u.out ++ [Event.GetSites] }) := by
  have h := GetFilteredSites_everything c u (by rw [hfetch]) hall
  rw [hfetch] at h
  exact h

/-- C2 witness: the sentinel in the middle of other names, one of them unknown
to the controller. -/
theorem C2_witness :
    GetFilteredSites scenarioController { Mode := "", Sites := ["ops", "all", "missing"] } =
      some ((scenarioSites, none),
        { Mode := "", Sites := ["ops", "all", "missing"], out := [Event.GetSites] }) :=
  C2_GetFilteredSites_returns_everything scenarioController
    { Mode := "", Sites := ["ops", "all", "missing"] } scenarioSites rfl (Or.inr (by decide))

/-- C3: GetFilteredSites never panics and the error it returns is exactly the
error of the site fetch, so it is non-nil if and only if the fetch failed; and
when the fetch failed the returned site list is nil, whatever the configured
list and whatever slice the controller handed back. -/
theorem C3_GetFilteredSites_error_is_fetch_error (c : Controller) (u : UnifiPoller) :
    ∃ sites u', GetFilteredSites c u = some ((sites, c.GetSites.2), u') ∧
      (c.GetSites.2 = none ∨ sites = []) := by
  cases herr : c.GetSites.2 with
  | some e => exact ⟨[], _, GetFilteredSites_failed c u e herr, Or.inr rfl⟩
  | none =>
    by_cases hall : u.Sites = [] ∨ "all" ∈ u.Sites
    · exact ⟨_, _, GetFilteredSites_everything c u herr hall, Or.inl rfl⟩
    · have h1 : u.Sites ≠ [] := fun h => hall (Or.inl h)
      have h2 : "all" ∉ u.Sites := fun h => hall (Or.inr h)
      exact ⟨_, _, GetFilteredSites_select c u herr h1 h2, Or.inl rfl⟩

/-- C4: outside lambda mode and after a successful site fetch, a configured
list that holds "all" anywhere is exactly ["all"] after CheckSites, CheckSites
returns nil, and the only effects are the fetch and the line listing the
fetched sites: no missing-site warning is emitted, also when other configured
names are absent from the controller. -/
theorem C4_CheckSites_collapses_to_all (c : Controller) (u : UnifiPoller) (fetched : List Site)
    (hmode : strings.Contains (strings.ToLower u.Mode) "lambda" = false)
    (hfetch : c.GetSites = (fetched, none)) (hall : "all" ∈ u.Sites) :
    CheckSites c u = (none, { u with
        Sites := ["all"], out := u.out ++ [Event.GetSites, foundSitesLine fetched] })
      ∧ (CheckSites c u).2.Sites.length = 1
      ∧ ∀ s, siteNotFoundLine s ∉ (CheckSites c u).2.out.drop u.out.length := by
  have h := CheckSites_all c u hmode (by rw [hfetch]) hall
  rw [hfetch] at h
  refine ⟨h, by rw [h]; rfl, ?_⟩
  intro s
  rw [h]
  simp [siteNotFoundLine, foundSitesLine]

/-- C4 witness: the sentinel between a known and an unknown name. -/
theorem C4_witness :
    CheckSites scenarioController { Mode := "influx", Sites := ["ops", "all", "missing"] } =
        (none, { Mode := "influx", Sites := ["all"]
                 out := [Event.GetSites, foundSitesLine scenarioSites] })
      ∧ (CheckSites scenarioController
          { Mode := "influx", Sites := ["ops", "all", "missing"] }).2.Sites.length = 1 :=
  have h := C4_CheckSites_collapses_to_all scenarioController
    { Mode := "influx", Sites := ["ops", "all", "missing"] } scenarioSites
    (by decide) rfl (by decide)
  ⟨h.1, h.2.1⟩

/-- C5: outside lambda mode, after a successful site fetch and with a
configured list that does not hold "all", CheckSites returns nil and emits,
after the fetch and the line listing the fetched sites, exactly one
missing-site warning for each configured entry whose name is the Name of no
fetched site, in configured order; a name gets a warning if and only if it is
configured and absent from the controller, and the number of error lines
emitted is the number of absent configured entries. -/
theorem C5_CheckSites_warns_absent_sites (c : Controller) (u : UnifiPoller)
    (fetched : List Site)
    (hmode : strings.Contains (strings.ToLower u.Mode) "lambda" = false)
    (hfetch : c.GetSites = (fetched, none)) (hall : "all" ∉ u.Sites) :
    CheckSites c u = (none, { u with
        out := u.out ++ [Event.GetSites, foundSitesLine fetched]
          ++ (absentSites u.Sites fetched).map siteNotFoundLine })
      ∧ (∀ s, siteNotFoundLine s ∈ (CheckSites c u).2.out.drop u.out.length ↔
          (s ∈ u.Sites ∧ ∀ site ∈ fetched, s ≠ site.Name))
      ∧ ((CheckSites c u).2.out.drop u.out.length).countP Event.isLogErrorf
          = (absentSites u.Sites fetched).length := by
  have h := CheckSites_names c u hmode (by rw [hfetch]) hall
  rw [hfetch] at h
  refine ⟨h, ?_, ?_⟩
  · intro s
    rw [h]
    simp only [List.append_assoc, List.drop_left, List.mem_append, List.mem_map]
    constructor
    · rintro (h1 | ⟨t, ht, hts⟩)
      · simp [siteNotFoundLine, foundSitesLine] at h1
      · have hst := siteNotFoundLine_injective hts
        subst hst
        unfold absentSites at ht
        simp only [List.mem_filter, decide_eq_true_eq, List.mem_map, not_exists, not_and] at ht
        exact ⟨ht.1, fun site hsite e => ht.2 site hsite e.symm⟩
    · rintro ⟨h1, h2⟩
      refine Or.inr ⟨s, ?_, rfl⟩
      unfold absentSites
      simp only [List.mem_filter, decide_eq_true_eq, List.mem_map, not_exists, not_and]
      exact ⟨h1, fun site hsite e => h2 site hsite e.symm⟩
  · rw [h]
    simp only [List.append_assoc, List.drop_left, List.countP_append,
      countP_isLogErrorf_warnings]
    simp [List.countP_cons, Event.isLogErrorf, foundSitesLine]

/-- C5 witness: against the controller holding default and ops, the configured
list ["ops"] gives no warning and the configured list ["missing"] gives exactly
one warning, naming "missing". -/
theorem C5_witness :
    CheckSites scenarioController { Mode := "influx", Sites := ["ops"] } =
        (none, { Mode := "influx", Sites := ["ops"]
                 out := [Event.GetSites, foundSitesLine scenarioSites] })
      ∧ CheckSites scenarioController { Mode := "influx", Sites := ["missing"] } =
        (none, { Mode := "influx", Sites := ["missing"]
                 out := [Event.GetSites, foundSitesLine scenarioSites,
                   siteNotFoundLine "missing"] })
      ∧ ((CheckSites scenarioController { Mode := "influx", Sites := ["missing"] }).2.out.drop
          0).countP Event.isLogErrorf = 1 :=
  have h0 := C5_CheckSites_warns_absent_sites scenarioController
    { Mode := "influx", Sites := ["ops"] } scenarioSites (by decide) rfl (by decide)
  have h1 := C5_CheckSites_warns_absent_sites scenarioController
    { Mode := "influx", Sites := ["missing"] } scenarioSites (by decide) rfl (by decide)
  ⟨h0.1, h1.1, h1.2.2⟩

/-- C6: outside lambda mode the error CheckSites returns is exactly the error
of the site fetch, so it is non-nil if and only if the fetch failed, whatever
the configured sites are (unknown ones never make it fail); and when the fetch
failed the only effect is the fetch itself: no site listing and no warning is
logged and the configuration is untouched. -/
theorem C6_CheckSites_error_is_fetch_error (c : Controller) (u : UnifiPoller)
    (hmode : strings.Contains (strings.ToLower u.Mode) "lambda" = false) :
    (CheckSites c u).1 = c.GetSites.2
      ∧ (c.GetSites.2 = none
          ∨ (CheckSites c u).2 = { u with out := u.out ++ [Event.GetSites] }) := by
  refine ⟨CheckSites_fst c u hmode, ?_⟩
  cases herr : c.GetSites.2 with
  | none => exact Or.inl rfl
  | some e => exact Or.inr (by rw [CheckSites_failed c u e hmode herr])

/-- C6 witness: a failing fetch with a configured site unknown to the controller. -/
theorem C6_witness :
    (CheckSites failingController { Mode := "influx", Sites := ["missing"] }).1
        = some (GoError.errorf "connection refused")
      ∧ (failingController.GetSites.2 = none
          ∨ (CheckSites failingController { Mode := "influx", Sites := ["missing"] }).2
            = { Mode := "influx", Sites := ["missing"], out := [Event.GetSites] }) :=
  C6_CheckSites_error_is_fetch_error failingController
    { Mode := "influx", Sites := ["missing"] } (by decide)

/-- C7: when the lower-cased mode contains "lambda", CheckSites returns nil and
leaves the poller as it was: no fetch, no log line, no warning, and the
configured list unchanged, also when it holds "all".  When the lower-cased mode
does not contain "lambda", the first effect of CheckSites is the site fetch,
and it fetches once. -/
theorem C7_CheckSites_skipped_in_lambda_mode (c : Controller) (u : UnifiPoller) :
    (strings.Contains (strings.ToLower u.Mode) "lambda" = true → CheckSites c u = (none, u))
      ∧ (strings.Contains (strings.ToLower u.Mode) "lambda" = false →
          ∃ rest, (CheckSites c u).2.out = u.out ++ Event.GetSites :: rest
            ∧ Event.GetSites ∉ rest) := by
  refine ⟨CheckSites_lambda c u, fun hmode => ?_⟩
  cases herr : c.GetSites.2 with
  | some e => exact ⟨[], by rw [CheckSites_failed c u e hmode herr], by simp⟩
  | none =>
    by_cases hall : "all" ∈ u.Sites
    · exact ⟨[foundSitesLine c.GetSites.1], by rw [CheckSites_all c u hmode herr hall],
        by simp [foundSitesLine]⟩
    · refine ⟨foundSitesLine c.GetSites.1 :: (absentSites u.Sites c.GetSites.1).map
        siteNotFoundLine, by rw [CheckSites_names c u hmode herr hall]; simp, ?_⟩
      simp [foundSitesLine, siteNotFoundLine]

/-- C7 witness: the modes "lambda", "LAMBDA" and "Lambda" skip the check with
"all" configured, and the mode "influx" fetches. -/
theorem C7_witness :
    CheckSites scenarioController { Mode := "lambda", Sites := ["ops", "all"] }
        = (none, { Mode := "lambda", Sites := ["ops", "all"] })
      ∧ CheckSites scenarioController { Mode := "LAMBDA", Sites := ["ops", "all"] }
        = (none, { Mode := "LAMBDA", Sites := ["ops", "all"] })
      ∧ CheckSites failingController { Mode := "Lambda", Sites := ["ops", "all"] }
        = (none, { Mode := "Lambda", Sites := ["ops", "all"] })
      ∧ ∃ rest, (CheckSites scenarioController { Mode := "influx", Sites := ["ops"] }).2.out
          = [] ++ Event.GetSites :: rest ∧ Event.GetSites ∉ rest :=
  ⟨(C7_CheckSites_skipped_in_lambda_mode scenarioController
      { Mode := "lambda", Sites := ["ops", "all"] }).1 (by decide),
   (C7_CheckSites_skipped_in_lambda_mode scenarioController
      { Mode := "LAMBDA", Sites := ["ops", "all"] }).1 (by decide),
   (C7_CheckSites_skipped_in_lambda_mode failingController
      { Mode := "Lambda", Sites := ["ops", "all"] }).1 (by decide),
   (C7_CheckSites_skipped_in_lambda_mode scenarioController
      { Mode := "influx", Sites := ["ops"] }).2 (by decide)⟩

/-- C8: CheckSites leaves a configured list that does not hold "all" exactly as
it was, whatever the mode, the fetched sites and the outcome of the fetch; and
GetFilteredSites returns (it never panics) with the configured list unchanged
for every input. -/
theorem C8_configured_sites_frame (c : Controller) (u : UnifiPoller) :
    ("all" ∉ u.Sites → (CheckSites c u).2.Sites = u.Sites)
      ∧ ∃ r u', GetFilteredSites c u = some (r, u') ∧ u'.Sites = u.Sites := by
  constructor
  · intro hall
    cases hmode : u.lambdaMode with
    | true => rw [CheckSites_lambda c u hmode]
    | false =>
      cases herr : c.GetSites.2 with
      | some e => rw [CheckSites_failed c u e hmode herr]
      | none => rw [CheckSites_names c u hmode herr hall]
  · cases herr : c.GetSites.2 with
    | some e => exact ⟨_, _, GetFilteredSites_failed c u e herr, rfl⟩
    | none =>
      by_cases hall : u.Sites = [] ∨ "all" ∈ u.Sites
      · exact ⟨_, _, GetFilteredSites_everything c u herr hall, rfl⟩
      · exact ⟨_, _, GetFilteredSites_select c u herr (fun h => hall (Or.inl h))
          (fun h => hall (Or.inr h)), rfl⟩

/-- C8 witness: the configured list ["missing"] is still ["missing"] after
CheckSites. -/
theorem C8_witness :
    (CheckSites scenarioController { Mode := "influx", Sites := ["missing"] }).2.Sites
      = ["missing"] :=
  (C8_configured_sites_frame scenarioController
    { Mode := "influx", Sites := ["missing"] }).1 (by decide)

/-- C9: ProcessPoints returns exactly one error slot per visited entity, in
the order Sites, Clients, UAPs, USGs, USWs: the list is the list of visited
entities with each one replaced by the error of its Points() (nil for a nil
entity), so its k-th element belongs to the k-th visited entity, and its length
is |Sites| + |Clients| when Devices is nil and |Sites| + |Clients| + |UAPs| +
|USGs| + |USWs| when Devices is present, whatever errors occur. -/
theorem C9_ProcessPoints_one_error_per_entity (m : Metrics) :
    m.ProcessPoints.1 = (Metrics.visited m).map pointsError
      ∧ (∀ k : Nat, m.ProcessPoints.1[k]? = ((Metrics.visited m)[k]?).map pointsError)
      ∧ m.ProcessPoints.1.length = m.Sites.length + m.Clients.length +
          (match m.Devices with
           | none => 0
           | some d => d.UAPs.length + d.USGs.length + d.USWs.length) := by
  rw [Metrics.ProcessPoints_eq]
  refine ⟨rfl, fun k => by simp, ?_⟩
  unfold Metrics.visited
  cases m.Devices with
  | none => simp
  | some d => simp [Nat.add_assoc]

/-- C10: after ProcessPoints the accumulator holds its previous points followed
by the points of the visited entities in visiting order, where an entity
contributes its points exactly when its Points() returned no error, and nothing
else of the snapshot changes.  When Devices is nil only the sites and clients
are visited; when Devices is present with three empty categories the result is
the same as that: the device part adds no points and no errors. -/
theorem C10_ProcessPoints_accumulates (m : Metrics) :
    m.ProcessPoints.2 = { m with BatchPoints := m.BatchPoints ++ pointsOf (Metrics.visited m) }
      ∧ (m.Devices = none ∨ m.Devices = some { UAPs := [], USGs := [], USWs := [] } →
          m.ProcessPoints.2.BatchPoints = m.BatchPoints
              ++ pointsOf (m.Sites.map (fun s => some s.asset) ++ m.Clients)
            ∧ m.ProcessPoints.1
              = (m.Sites.map (fun s => some s.asset) ++ m.Clients).map pointsError) := by
  rw [Metrics.ProcessPoints_eq]
  refine ⟨rfl, fun h => ?_⟩
  unfold Metrics.visited
  rcases h with h | h <;> simp [h]

/-- C10 witness: with Devices nil, the failing client contributes nothing and
the site before it and the client after it still contribute their points. -/
theorem C10_witness :
    lenientSnapshot.ProcessPoints.2.BatchPoints =
        [{ name := "earlier", Fields := ([], none) }, { name := "site", Fields := ([], none) },
          { name := "client", Fields := ([], none) }]
      ∧ lenientSnapshot.ProcessPoints.1 =
        [none, some (GoError.errorf "bad client"), none, none] :=
  (C10_ProcessPoints_accumulates lenientSnapshot).2 (Or.inl rfl)

/-- C11: passing a nil entity through processPoints returns a nil error and
leaves the snapshot, its accumulator included, exactly as it was (a nil entity
has no Points() to invoke: the method returns before the call); doing it any
number of times is the same as not doing it.  An entity whose Points() returns
no error and no points (a nil or an empty sequence) likewise yields a nil error
and leaves the snapshot as it was. -/
theorem C11_processPoints_nil_is_noop (m : Metrics) :
    m.processPoints none = (none, m)
      ∧ (∀ n : Nat, (fun x : Metrics => (x.processPoints none).2)^[n] m = m)
      ∧ (∀ a : Asset, a.Points.2 = none → a.Points.1.getD [] = [] →
          m.processPoints (some a) = (none, m)) := by
  refine ⟨rfl, fun n => ?_, fun a herr hpts => ?_⟩
  · induction n with
    | zero => rfl
    | succ n ih => rw [Function.iterate_succ_apply]; exact ih
  · rw [Metrics.processPoints_eq]
    simp [pointsError, pointsAdded, herr, hpts]

/-- C11 witness: an entity with an empty, non-nil point sequence and no error
leaves the snapshot of the scenario as it was. -/
theorem C11_witness :
    lenientSnapshot.processPoints (some { Points := (some [], none) }) = (none, lenientSnapshot) :=
  (C11_processPoints_nil_is_noop lenientSnapshot).2.2 { Points := (some [], none) } rfl rfl

/-- C12: on the snapshot of the two scenario sites whose Devices is nil, with a
sink whose write succeeds, ReportMetrics does not return nil: it panics in the
summary line, which reads the three device categories through the nil pointer.
On the same snapshot ProcessPoints, which tests for the nil pointer, returns. -/
theorem C12_ReportMetrics_panics_without_devices :
    ({} : Influx).Write snapshotWithoutDevices.populated.BatchPoints = none
      ∧ snapshotWithoutDevices.ProcessPoints.1 = [none, none]
      ∧ ReportMetrics {} idlePoller snapshotWithoutDevices = none := by
  decide

/-- C13: CollectMetrics always returns, never panics, and the error it returns
is exactly the error of making the batch, so it is non-nil if and only if that
fails; the snapshot it returns holds the resolved sites (none when the site
fetch failed) and whatever the client fetch, the device fetch and the making of
the batch handed back, whether or not they failed. -/
theorem C13_CollectMetrics_error_is_init_error (c : Controller) (db : Influx)
    (u : UnifiPoller) :
    ∃ m u', CollectMetrics c db u = some ((m, db.NewBatchPoints.2), u')
      ∧ m.Sites = filteredSites c.GetSites u.Sites
      ∧ (c.GetSites.2 = none ∨ m.Sites = [])
      ∧ m.Clients = (c.GetClients m.Sites).1
      ∧ m.Devices = (c.GetDevices m.Sites).1
      ∧ m.BatchPoints = db.NewBatchPoints.1 := by
  refine ⟨snapshotOf c db u, _, CollectMetrics_eq c db u, rfl, ?_, rfl, rfl, rfl⟩
  cases herr : c.GetSites.2 with
  | none => exact Or.inl rfl
  | some e => exact Or.inr (by simp [snapshotOf, filteredSites, herr])

/-- C14: with a device fetch that fails and hands back nil, a batch that is
made and a write that succeeds, CollectAndReport does not return nil: the cycle
panics in the summary line of ReportMetrics.  The batch is made, the write
succeeds, and the same cycle with a failing write returns the wrapped error. -/
theorem C14_CollectAndReport_panics_without_devices :
    ({} : Influx).NewBatchPoints.2 = none
      ∧ ({} : Influx).Write (snapshotOf devicesDownController {} idlePoller).populated.BatchPoints
          = none
      ∧ CollectAndReport devicesDownController {} idlePoller = none
      ∧ (CollectAndReport devicesDownController writeFailing idlePoller).map (fun r => r.1)
          = some (some (GoError.wrap (GoError.errorf "write failed") "influxdb.Write(points)")) := by
  decide

/-- C15: one tick of PollController is one step on the poller the cycle of
that tick leaves behind: whatever error the cycle returned, the loop returns
the threshold error at that tick exactly when MaxErrors >= 0 and errorCount >
MaxErrors hold after the cycle, and goes on to the next tick otherwise.  Hence
with a negative MaxErrors the loop returns no error for any ticks and any
errorCount, and with MaxErrors >= 0 it never goes past a tick after whose cycle
errorCount > MaxErrors. -/
theorem C15_PollController_stops_on_threshold (c : Controller) (db : Influx)
    (ticks : List (Controller × Influx)) (u : UnifiPoller) :
    (∀ err u', CollectAndReport c db u = some (err, u') →
        pollTick c db u = some (thresholdError u', u')
        ∧ (thresholdError u' ≠ none ↔ (u'.MaxErrors ≥ 0 ∧ u'.errorCount > u'.MaxErrors))
        ∧ ((u'.MaxErrors ≥ 0 ∧ u'.errorCount > u'.MaxErrors) →
            ∃ e, thresholdError u' = some e
              ∧ PollController ((c, db) :: ticks) u = some (some e, u'))
        ∧ (¬ (u'.MaxErrors ≥ 0 ∧ u'.errorCount > u'.MaxErrors) →
            PollController ((c, db) :: ticks) u = PollController ticks u'))
      ∧ (u.MaxErrors < 0 →
          PollController ticks u = none ∨ ∃ u', PollController ticks u = some (none, u')) := by
  refine ⟨fun err u' h => ⟨pollTick_of_cycle c db u err u' h, thresholdError_ne_none_iff u', ?_, ?_⟩,
    PollController_negative ticks u⟩
  · intro hstop
    have hne := (thresholdError_ne_none_iff u').2 hstop
    cases he : thresholdError u' with
    | none => exact absurd he hne
    | some e =>
      refine ⟨e, rfl, ?_⟩
      unfold PollController
      simp only [pollTick_of_cycle c db u err u' h, he]
  · intro hgo
    have hn : thresholdError u' = none := by
      by_contra hne
      exact hgo ((thresholdError_ne_none_iff u').1 hne)
    conv_lhs => unfold PollController
    simp only [pollTick_of_cycle c db u err u' h, hn]

/-- C15 witness: with MaxErrors 2 and errorCount 3 after the cycle of a tick,
whose write failed, the loop returns at that tick, whatever ticks would follow;
with MaxErrors -1 three such ticks return no error. -/
theorem C15_witness :
    (∃ e, thresholdError (afterFailedWrite { idlePoller with errorCount := 3 }) = some e
        ∧ PollController ((healthyController, writeFailing) :: [failedWriteTick, failedWriteTick])
            { idlePoller with errorCount := 3 }
          = some (some e, afterFailedWrite { idlePoller with errorCount := 3 }))
      ∧ (PollController [failedWriteTick, failedWriteTick, failedWriteTick] tirelessPoller = none
          ∨ ∃ u', PollController [failedWriteTick, failedWriteTick, failedWriteTick] tirelessPoller
            = some (none, u')) :=
  ⟨((C15_PollController_stops_on_threshold healthyController writeFailing
      [failedWriteTick, failedWriteTick] { idlePoller with errorCount := 3 }).1
      (some (GoError.wrap (GoError.errorf "write failed") "influxdb.Write(points)"))
      (afterFailedWrite { idlePoller with errorCount := 3 }) (by decide)).2.2.1 (by decide),
   (C15_PollController_stops_on_threshold healthyController writeFailing
      [failedWriteTick, failedWriteTick, failedWriteTick] tirelessPoller).2 (by decide)⟩

/-- C16: no line of the cycle assigns errorCount, so a cycle that returns
leaves the counter to the increment the spec describes, whose code is not in
the source file: with it, a tick whose CollectAndReport returns a non-nil error
raises errorCount by one (the Go increment, which is n + 1 below the largest
int) and a tick whose cycle returns nil leaves it unchanged, and the test of
lines 52-54 is made on the counter so raised.  Consequently, from errorCount 0
with MaxErrors 2, the loop has not returned after exactly two failed cycles,
where errorCount is 2, and returns the threshold error at the third, where
errorCount reaches 3. -/
theorem C16_errorCount_counts_failed_cycles (c : Controller) (db : Influx) (u : UnifiPoller) :
    (∀ err u', CollectAndReport c db u = some (err, u') →
        u'.errorCount = u.errorCount
        ∧ countedTick c db u = some (thresholdError (countCycle u' err), countCycle u' err)
        ∧ (err ≠ none → (countCycle u' err).errorCount = intIncrement u.errorCount)
        ∧ (err = none → (countCycle u' err).errorCount = u.errorCount))
      ∧ (∀ n : Int, -2 ^ 63 ≤ n → n < 2 ^ 63 - 1 → intIncrement n = n + 1)
      ∧ (countedPoll [failedWriteTick, failedWriteTick] idlePoller).map
          (fun r => (r.1, r.2.errorCount)) = some (none, 2)
      ∧ (countedPoll [failedWriteTick, failedWriteTick, failedWriteTick] idlePoller).map
          (fun r => (r.1, r.2.errorCount))
          = some (some (GoError.errorf "reached maximum error count, stopping poller (3 > 2)"),
              3) := by
  refine ⟨fun err u' h => ?_, fun n h1 h2 => ?_, by decide, by decide⟩
  · have hc := CollectAndReport_errorCount c db u err u' h
    refine ⟨hc, ?_, ?_, ?_⟩
    · unfold countedTick
      rw [h]
    · intro hne
      cases err with
      | none => exact absurd rfl hne
      | some e => simp only [countCycle, hc]
    · intro he
      subst he
      exact hc
  · unfold intIncrement
    omega

/-- C16 witness: a cycle whose write fails returns the wrapped error and the
tick raises errorCount from 0 to 1. -/
theorem C16_witness :
    (afterFailedWrite idlePoller).errorCount = idlePoller.errorCount
      ∧ countedTick healthyController writeFailing idlePoller
          = some (thresholdError (countCycle (afterFailedWrite idlePoller)
                (some (GoError.wrap (GoError.errorf "write failed") "influxdb.Write(points)"))),
              countCycle (afterFailedWrite idlePoller)
                (some (GoError.wrap (GoError.errorf "write failed") "influxdb.Write(points)")))
      ∧ (countCycle (afterFailedWrite idlePoller)
            (some (GoError.wrap (GoError.errorf "write failed") "influxdb.Write(points)"))).errorCount
          = 1 :=
  have h := (C16_errorCount_counts_failed_cycles healthyController writeFailing idlePoller).1
    (some (GoError.wrap (GoError.errorf "write failed") "influxdb.Write(points)"))
    (afterFailedWrite idlePoller) (by decide)
  ⟨h.1, h.2.1, by decide⟩

/-- C17 counterexample: in lambda mode, with the configured list ["missing"]
against the controller holding default and ops, CheckSites emits no warning for
"missing" although GetFilteredSites returns no site of that name. -/
theorem C17_counterexample :
    "all" ∉ ["missing"]
      ∧ siteNotFoundLine "missing" ∉
          (CheckSites scenarioController { Mode := "lambda", Sites := ["missing"] }).2.out
      ∧ GetFilteredSites scenarioController { Mode := "lambda", Sites := ["missing"] }
          = some (([], none), { Mode := "lambda", Sites := ["missing"], out := [Event.GetSites] }) := by
  decide

/-- C17, as the code behaves: outside lambda mode, for a configured list that does not
hold "all" and one and the same successfully fetched site list, CheckSites and
GetFilteredSites agree on the unknown configured names: GetFilteredSites
returns, and a configured name gets a missing-site warning from CheckSites if
and only if no site GetFilteredSites returns has that name. -/
theorem C17_CheckSites_agrees_with_GetFilteredSites (c : Controller) (u : UnifiPoller)
    (fetched : List Site)
    (hmode : strings.Contains (strings.ToLower u.Mode) "lambda" = false)
    (hfetch : c.GetSites = (fetched, none)) (hall : "all" ∉ u.Sites) :
    ∃ sites u', GetFilteredSites c u = some ((sites, none), u')
      ∧ ∀ s ∈ u.Sites,
          (siteNotFoundLine s ∈ (CheckSites c u).2.out.drop u.out.length ↔
            ∀ site ∈ sites, site.Name ≠ s) := by
  have herr : c.GetSites.2 = none := by rw [hfetch]
  refine ⟨filteredSites c.GetSites u.Sites, { u with out := u.out ++ [Event.GetSites] }, ?_,
    fun s hs => ?_⟩
  · have h := GetFilteredSites_eq c u
    rw [herr] at h
    exact h
  · have hne : u.Sites ≠ [] := List.ne_nil_of_mem hs
    rw [warned_iff c u hmode herr hall s]
    simp only [filteredSites, herr, hne, hall, or_self, if_false, List.mem_filter,
      decide_eq_true_eq]
    constructor
    · rintro ⟨_, h2⟩ site ⟨hsite, _⟩ e
      exact h2 site hsite e.symm
    · intro h
      exact ⟨hs, fun site hsite e => h site ⟨hsite, e ▸ hs⟩ e.symm⟩

/-- C17 witness: in the mode "influx", against the controller holding default
and ops, the configured names ops and missing are treated alike by both. -/
theorem C17_witness :
    ∃ sites u', GetFilteredSites scenarioController
        { Mode := "influx", Sites := ["ops", "missing"] } = some ((sites, none), u')
      ∧ ∀ s ∈ ["ops", "missing"],
          (siteNotFoundLine s ∈ (CheckSites scenarioController
              { Mode := "influx", Sites := ["ops", "missing"] }).2.out.drop 0 ↔
            ∀ site ∈ sites, site.Name ≠ s) :=
  C17_CheckSites_agrees_with_GetFilteredSites scenarioController
    { Mode := "influx", Sites := ["ops", "missing"] } scenarioSites (by decide) rfl (by decide)

/-- C18: every CollectMetrics cycle returns, and its effects are, in this
order, the site fetch, the client fetch, the device fetch and the making of the
batch, each followed by the error line of its failure if it failed.  So the
client fetch and the device fetch are each invoked exactly once, clients first,
each with exactly the site list GetFilteredSites returned, which is the Sites
of the snapshot and is empty when the site fetch failed; and no failure keeps
a later call from being made. -/
theorem C18_CollectMetrics_fetches_once_each (c : Controller) (db : Influx) (u : UnifiPoller) :
    ∃ m err u', CollectMetrics c db u = some ((m, err), u')
      ∧ (∃ u₁, GetFilteredSites c u = some ((m.Sites, c.GetSites.2), u₁))
      ∧ (c.GetSites.2 = none ∨ m.Sites = [])
      ∧ u'.out = u.out ++ ([Event.GetSites] ++ logged c.GetSites.2 "unifi.GetSites()"
          ++ [Event.GetClients m.Sites] ++ logged (c.GetClients m.Sites).2 "unifi.GetClients()"
          ++ [Event.GetDevices m.Sites] ++ logged (c.GetDevices m.Sites).2 "unifi.GetDevices()"
          ++ [Event.NewBatchPoints] ++ logged db.NewBatchPoints.2 "influx.NewBatchPoints")
      ∧ (u'.out.drop u.out.length).filter Event.isFetch
          = [Event.GetClients m.Sites, Event.GetDevices m.Sites]
      ∧ Event.NewBatchPoints ∈ u'.out.drop u.out.length := by
  refine ⟨snapshotOf c db u, _, _, CollectMetrics_eq c db u, ⟨_, GetFilteredSites_eq c u⟩,
    ?_, rfl, ?_, ?_⟩
  · cases herr : c.GetSites.2 with
    | none => exact Or.inl rfl
    | some e => exact Or.inr (by simp [snapshotOf, filteredSites, herr])
  · simp only [List.drop_left]
    exact filter_isFetch_collectEvents c db u
  · simp only [List.drop_left]
    exact NewBatchPoints_mem_collectEvents c db u

/-- C19 counterexample: on a batch that holds one point whose Fields() hands
back three fields together with an error, the accounting counts three fields,
and the summary line of ReportMetrics reports one point and three fields, while
the sum over the points whose field extraction succeeds is zero. -/
theorem C19_counterexample :
    oddPoint.Fields.2 ≠ none
      ∧ fieldsOfGood [oddPoint] = 0
      ∧ accounting [oddPoint] (0, 0) = (3, 1)
      ∧ ReportMetrics {} idlePoller oddSnapshot
          = some ((none, oddSnapshot),
              { idlePoller with
                out := [Event.Write [oddPoint], Event.Logf (summaryText 0 0 0 0 0 1 3)] }) := by
  decide

/-- C19, as the code behaves: after the write the accounting of ReportMetrics
counts one point for every point of the accumulator and adds, for every point,
the size of the field map its Fields() hands back, whatever error comes with
it; so a point whose field extraction errors counts as one point and
contributes the size of the map it handed back.  On a snapshot with devices the
summary line carries these two counts.  When the write fails the wrapped error
is returned right after the write and no summary is logged. -/
theorem C19_ReportMetrics_accounting (db : Influx) (u : UnifiPoller) (m : Metrics) :
    (accounting m.populated.BatchPoints (0, 0)).2 = m.populated.BatchPoints.length
      ∧ (accounting m.populated.BatchPoints (0, 0)).1
          = (m.populated.BatchPoints.map (fun p => p.Fields.1.length)).sum
      ∧ (∀ d, db.Write m.populated.BatchPoints = none → m.Devices = some d →
          ∃ u', ReportMetrics db u m = some ((none, m.populated), u')
            ∧ u'.out = u.out ++ reportEvents m ++ [summaryLine m.populated d])
      ∧ (∀ e, db.Write m.populated.BatchPoints = some e →
          ∃ u', ReportMetrics db u m
              = some ((some (GoError.wrap e "influxdb.Write(points)"), m.populated), u')
            ∧ u'.out = u.out ++ reportEvents m
            ∧ ∀ msg, Event.Logf msg ∉ reportEvents m) := by
  refine ⟨by simp [accounting_eq], by simp [accounting_eq],
    fun d hw hd => ⟨_, ReportMetrics_written db u m d hw hd, rfl⟩,
    fun e hw => ⟨_, ReportMetrics_write_failed db u m e hw, rfl, fun msg => ?_⟩⟩
  unfold reportEvents
  simp [Logf_not_mem_loggedAll]

/-- C19 witness: on the snapshot whose batch is the odd point, with a write
that succeeds, ReportMetrics returns nil after the summary line; with a write
that fails it returns the wrapped error and logs no summary. -/
theorem C19_witness :
    (∃ u', ReportMetrics {} idlePoller oddSnapshot = some ((none, oddSnapshot.populated), u')
        ∧ u'.out = idlePoller.out ++ reportEvents oddSnapshot
            ++ [summaryLine oddSnapshot.populated { UAPs := [], USGs := [], USWs := [] }])
      ∧ ∃ u', ReportMetrics writeFailing idlePoller oddSnapshot
          = some ((some (GoError.wrap (GoError.errorf "write failed") "influxdb.Write(points)"),
              oddSnapshot.populated), u')
        ∧ u'.out = idlePoller.out ++ reportEvents oddSnapshot
        ∧ ∀ msg, Event.Logf msg ∉ reportEvents oddSnapshot :=
  ⟨(C19_ReportMetrics_accounting {} idlePoller oddSnapshot).2.2.1
      { UAPs := [], USGs := [], USWs := [] } rfl rfl,
   (C19_ReportMetrics_accounting writeFailing idlePoller oddSnapshot).2.2.2
      (GoError.errorf "write failed") rfl⟩

/-- C20: the in-place compaction of GetFilteredSites is safe and loses nothing.
Before every iteration, at read index k, the loop has not panicked, the write
index i is at most k and is the number of sites kept so far, the slice has its
length, every site from index i on is still the fetched one (so no site that
has not been read yet was overwritten), and the first i sites are the kept
ones.  On exit the write index is the number of matching sites, at most the
number of fetched sites, so the truncation is in bounds and has that length. -/
theorem C20_compaction_is_safe (conf : List String) (sites : List Site) :
    (∀ k, k ≤ sites.length →
        ∃ arr i, filterLoop conf sites k = some (arr, i) ∧ i ≤ k
          ∧ i = (kept conf sites k).length ∧ arr.length = sites.length
          ∧ (∀ j : Nat, i ≤ j → arr[j]? = sites[j]?) ∧ arr.take i = kept conf sites k)
      ∧ ∃ arr i, filterLoop conf sites sites.length = some (arr, i)
          ∧ i ≤ arr.length ∧ i ≤ sites.length
          ∧ i = (sites.filter (fun s => decide (s.Name ∈ conf))).length
          ∧ (arr.take i).length = i
          ∧ arr.take i = sites.filter (fun s => decide (s.Name ∈ conf)) := by
  refine ⟨fun k hk => filterLoop_state conf sites k hk, ?_⟩
  obtain ⟨arr, i, h, hik, hi, hlen, _, htake⟩ := filterLoop_state conf sites sites.length (le_refl _)
  rw [kept_all] at hi htake
  refine ⟨arr, i, h, by omega, hik, hi, ?_, htake⟩
  rw [htake, hi]

/-- C20 witness: after the two iterations over default and ops with ops
configured, the write index is 1 and the first site is ops. -/
theorem C20_witness :
    ∃ arr i, filterLoop ["ops"] scenarioSites 2 = some (arr, i) ∧ i ≤ 2
      ∧ i = (kept ["ops"] scenarioSites 2).length ∧ arr.length = scenarioSites.length
      ∧ (∀ j : Nat, i ≤ j → arr[j]? = scenarioSites[j]?)
      ∧ arr.take i = kept ["ops"] scenarioSites 2 :=
  (C20_compaction_is_safe ["ops"] scenarioSites).1 2 (by decide)

end unifipoller
